import Mathlib

/-!
# Verification of `dakara_base` (websocket client and URL utilities)

Shallow embedding of `src/dakara_base/utils.py` and
`src/dakara_base/websocket_client.py` from the `dakara-base` repository,
together with proofs of the specification claims about them.

Python values exchanged through JSON are modelled by the inductive type
`Json` (numbers restricted to integers, which covers every value the
claims touch).  Python exceptions are modelled with `Except`; logging is
modelled as an explicit list of log events.  The `safe_workers` module is
not part of the sources: its `Stop Signal` is modelled as a boolean
parameter and its cancellable timers by the `TimerH` structure, both
following the specification's words.
-/

set_option autoImplicit false

namespace DakaraBase

/-- Model of a Python value carried in a JSON message (numbers restricted
to integers). -/
inductive Json where
  | null
  | bool (b : Bool)
  | num (n : Int)
  | str (s : String)
  | arr (elems : List Json)
  | obj (fields : List (String × Json))
deriving Repr

/-- Python truthiness (`if data:` and friends) on `Json` values. -/
def truthy : Json → Bool
  | .null => false
  | .bool b => b
  | .num n => n != 0
  | .str s => s != ""
  | .arr elems => !elems.isEmpty
  | .obj fields => !fields.isEmpty

/-- Dictionary lookup: `d.get(k)` returning `none` when the key is
absent.  JSON objects produced by `json.loads` have unique keys, so the
first matching key is the binding. -/
def lookup : List (String × Json) → String → Option Json
  | [], _ => none
  | (k, v) :: rest, key => if k == key then some v else lookup rest key

/-- Escaping of one character inside a JSON string literal, as
`json.dumps` performs it for the characters the claims use. -/
def escapeChar (c : Char) : String :=
  if c = '"' then "\\\"" else if c = '\\' then "\\\\" else String.singleton c

/-- Escaping of a string for a JSON string literal. -/
def escapeStr (s : String) : String :=
  String.join (s.toList.map escapeChar)

mutual

/-- Model of Python `json.dumps` with its default separators
(`", "` between items, `": "` after keys). -/
def Json.dumps : Json → String
  | .null => "null"
  | .bool true => "true"
  | .bool false => "false"
  | .num n => toString n
  | .str s => "\"" ++ escapeStr s ++ "\""
  | .arr elems => "[" ++ dumpsElems elems ++ "]"
  | .obj fields => "\x7b" ++ dumpsFields fields ++ "\x7d"

/-- Serialization of the elements of a JSON array. -/
def dumpsElems : List Json → String
  | [] => ""
  | [x] => Json.dumps x
  | x :: rest => Json.dumps x ++ ", " ++ dumpsElems rest

/-- Serialization of the fields of a JSON object. -/
def dumpsFields : List (String × Json) → String
  | [] => ""
  | [(k, v)] => "\"" ++ escapeStr k ++ "\": " ++ Json.dumps v
  | (k, v) :: rest =>
      "\"" ++ escapeStr k ++ "\": " ++ Json.dumps v ++ ", " ++ dumpsFields rest

end

mutual

/-- Model of Python `str()` on a value (used by
`"receive_{}".format(event["type"])`): strings are rendered bare, other
values as their `repr`. -/
def pyStr : Json → String
  | .str s => s
  | v => pyRepr v

/-- Model of Python `repr()` on a value. -/
def pyRepr : Json → String
  | .null => "None"
  | .bool true => "True"
  | .bool false => "False"
  | .num n => toString n
  | .str s => "'" ++ s ++ "'"
  | .arr elems => "[" ++ pyReprElems elems ++ "]"
  | .obj fields => "\x7b" ++ pyReprFields fields ++ "\x7d"

/-- `repr` of the elements of a Python list. -/
def pyReprElems : List Json → String
  | [] => ""
  | [x] => pyRepr x
  | x :: rest => pyRepr x ++ ", " ++ pyReprElems rest

/-- `repr` of the items of a Python dict. -/
def pyReprFields : List (String × Json) → String
  | [] => ""
  | [(k, v)] => "'" ++ k ++ "': " ++ pyRepr v
  | (k, v) :: rest => "'" ++ k ++ "': " ++ pyRepr v ++ ", " ++ pyReprFields rest

end

/-! ## `utils.py` -/

/-- Python `str.strip()`: remove leading and trailing whitespace,
modelled on the character list of the string. -/
def pyStrip (s : List Char) : List Char :=
  ((s.dropWhile Char.isWhitespace).reverse.dropWhile Char.isWhitespace).reverse

/-- Embedding of `utils.display_message`: return the message unchanged
when it has at most `limit` characters, otherwise the first `limit - 3`
characters, stripped, with `"..."` appended.  Strings are modelled as
their character lists. -/
def display_message (message : List Char) (limit : Nat := 100) : List Char :=
  if message.length ≤ limit then message
  else pyStrip (message.take (limit - 3)) ++ [ '.', '.', '.' ]

/-- Error raised by `utils.create_url` (`URLParameterError`, a subclass
of `DakaraError` and `ValueError`). -/
inductive URLParameterError where
  /-- `scheme` or `host` missing after resolving the configuration. -/
  | mandatoryMissing
  /-- `ValueError` raised by `furl` while combining the parts. -/
  | fromValueError
deriving DecidableEq, Repr

/-- Splitting a character list at every occurrence of `sep`, keeping
empty pieces, as Python `str.split(sep)` does. -/
def splitCharAux (sep : Char) : List Char → List Char → List (List Char)
  | [], acc => [acc.reverse]
  | c :: rest, acc =>
      if c = sep then acc.reverse :: splitCharAux sep rest []
      else splitCharAux sep rest (c :: acc)

/-- Model of Python `address.split(":")`: the pieces of the string
between the colons (`[""]` on the empty string). -/
def pySplit (s : String) (sep : Char) : List String :=
  (splitCharAux sep s.toList []).map (fun cs => String.mk cs)

/-- The numeric value of a non-empty all-digit string, `none`
otherwise. -/
def pyPortNat (p : String) : Option Nat :=
  let cs := p.toList
  if cs ≠ [] ∧ cs.all Char.isDigit then
    some (cs.foldl (fun acc c => acc * 10 + (c.toNat - 48)) 0)
  else none

/-- A port accepted by `furl`: a string of digits denoting an integer
between 1 and 65535.  (An integer port from the configuration is
modelled as its decimal string.) -/
def validPort (p : String) : Bool :=
  match pyPortNat p with
  | some n => decide (1 ≤ n ∧ n ≤ 65535)
  | none => false

/-- Validity of an optional port. -/
def validPortOpt : Option String → Bool
  | none => true
  | some p => validPort p

/-- Model of `furl(scheme=..., host=..., port=..., path=...).url` for
well-formed simple inputs: `scheme://host[:port][/path]`. -/
def mkNetUrl (scheme host : String) (port : Option String) (path : String) : String :=
  scheme ++ "://" ++ host ++
    (match port with | some p => ":" ++ p | none => "") ++
    (if path = "" then "" else "/" ++ path)

/-- Model of `furl(scheme=..., host=..., port=..., path=...).url`
including the `ValueError` that `furl` raises on an invalid port. -/
def furlBuild (scheme host : String) (port : Option String) (path : String) :
    Except URLParameterError String :=
  if validPortOpt port then .ok (mkNetUrl scheme host port path)
  else .error .fromValueError

/-- Model of `furl(url).add(path=path).url` for plain URLs without a
trailing slash: append `path` as an extra segment when non-empty. -/
def furlAddPath (url path : String) : String :=
  if path = "" then url else url ++ "/" ++ path

/-- Embedding of `utils.create_url`.  An absent `port` argument is
`none`; every other argument defaults to the empty string / `false` as
in the source. -/
def create_url (url address host : String) (port : Option String) (path : String)
    (ssl : Bool) (scheme_no_ssl scheme_ssl : String) :
    Except URLParameterError String :=
  -- setting URL directly
  if url ≠ "" then .ok (furlAddPath url path)
  else
    -- getting host and port indirectly from address
    let hp : String × Option String :=
      if host = "" then
        -- `host, port = address.split(":")` succeeds exactly when the
        -- split has two pieces; on `ValueError` the host is `address`
        match pySplit address ':' with
        | [h, p] => (h, some p)
        | _ => (address, port)
      else (host, port)
    -- getting scheme
    let scheme := if ssl then scheme_ssl else scheme_no_ssl
    -- check mandatory arguments are given
    if scheme = "" ∨ hp.1 = "" then .error .mandatoryMissing
    else furlBuild scheme hp.1 hp.2 path

/-! ## `websocket_client.py` -/

/-- Model of the underlying `websocket.WebSocketApp` object held in
`self.websocket`: for the claims only its `sock` matters, through
whether `hasattr(self.websocket.sock, "abort")` holds. -/
structure Websock where
  sockHasAbort : Bool
deriving DecidableEq, Repr

/-- Modelled from the spec: a cancellable delayed-invocation handle
produced by `WorkerSafeTimer.create_timer` (the `safe_workers` module is
not among the sources).  The `id` distinguishes fresh timers from older
ones, `interval` is the delay in seconds before the scheduled `run`,
`started` records whether `start()` was called. -/
structure TimerH where
  id : Nat
  interval : Nat
  started : Bool
deriving DecidableEq, Repr

/-- Modelled from the spec: creating a fresh timer scheduling `run`
after `interval` seconds; `count` is the number of timers created so
far, giving the fresh handle its identity. -/
def create_timer (count : Nat) (interval : Nat) : TimerH :=
  { id := count, interval := interval, started := false }

/-- Modelled from the spec: `timer.start()`. -/
def timer_start (t : TimerH) : TimerH :=
  { t with started := true }

/-- Mutable state of a `WebSocketClient` relevant to the claims:
`websocket` (the connection handle), `retry`, `reconnect_interval`, the
current `timer`, and the count of timers created so far (a modelling
device giving each created timer a fresh identity). -/
structure ClientState where
  websocket : Option Websock
  retry : Bool
  reconnect_interval : Nat
  timer : TimerH
  timerCount : Nat
deriving DecidableEq, Repr

/-- The exception classes defined in `websocket_client.py`, all
subclasses of `DakaraError`. -/
inductive DakaraErr where
  | NotConnectedError
  | AuthenticationError
  | ParameterError
  | NetworkError
deriving DecidableEq, Repr

/-- The transport error classes distinguished by `on_error`. -/
inductive TransportError where
  | WebSocketBadStatusException
  | ConnectionRefusedError
  | ConnectionResetError
  | WebSocketConnectionClosedException
  | other (desc : String)
deriving DecidableEq, Repr

/-- A log record: severity and the (format) message of the call. -/
inductive LogEvent where
  | debug (msg : String)
  | info (msg : String)
  | warning (msg : String)
  | error (msg : String)
deriving DecidableEq, Repr

/-- Observable outcome of one `on_error` call.  `escalated e` models
`raise e`, which the `safe` wrapper intercepts and routes to the shared
error channel; the other constructors model a plain return, with or
without a log record. -/
inductive ErrOutcome where
  | ignored
  | warned (msg : String)
  | logged (msg : String)
  | escalated (e : DakaraErr)
deriving DecidableEq, Repr

/-- Embedding of `WebSocketClient.on_error`.  `stop` is the worker's
Stop Signal (`self.stop.is_set()`), modelled as a boolean input;
`retry` is `self.retry`.  The method mutates no state. -/
def on_error (stop retry : Bool) (error : TransportError) : ErrOutcome :=
  -- do not analyze error on program exit
  if stop then .ignored
  else
    match error with
    -- the connection was refused
    | .WebSocketBadStatusException =>
        .escalated .AuthenticationError
    -- the server is unreachable
    | .ConnectionRefusedError =>
        if retry then .warned "Unable to talk to the server"
        else .escalated .NetworkError
    -- the requested endpoint does not exist
    | .ConnectionResetError =>
        .escalated .ParameterError
    -- connection closed by the server: handled by the on_close method
    | .WebSocketConnectionClosedException => .ignored
    -- other unlisted reason
    | .other _ => .logged "Websocket: %s"

/-- Embedding of `WebSocketClient.on_open`: clear `retry`, log, call the
`on_connected` stub (a no-op). -/
def on_open (s : ClientState) : ClientState × List LogEvent :=
  ({ s with retry := false }, [.info "Websocket connected to server"])

/-- Result of one `on_close` call: the new client state, the log
records, and the delay of the newly scheduled `run`, `none` when no run
was scheduled. -/
structure CloseResult where
  state : ClientState
  logs : List LogEvent
  scheduledRun : Option Nat
deriving DecidableEq, Repr

/-- Embedding of `WebSocketClient.on_close`.  `stop` is the Stop Signal,
`code` and `reason` the close arguments (`none` models Python `None`;
the `if code or reason` test uses Python truthiness). -/
def on_close (stop : Bool) (s : ClientState) (code : Option Int) (reason : Option String) :
    CloseResult :=
  let logs0 : List LogEvent :=
    if (match code with | some n => n != 0 | none => false)
        || (match reason with | some r => r != "" | none => false) then
      [.debug "Code %i: %s"]
    else []
  -- destroy websocket object
  let s1 := { s with websocket := none }
  if stop then
    { state := s1, logs := logs0 ++ [.info "Websocket disconnected from server"],
      scheduledRun := none }
  else
    let logs1 : List LogEvent :=
      if !s1.retry then [.error "Websocket connection lost"] else []
    let s2 := { s1 with retry := true }
    -- `on_connection_lost` stub: no-op
    -- attempt to reconnect
    let t := timer_start (create_timer s2.timerCount s2.reconnect_interval)
    { state := { s2 with timer := t, timerCount := s2.timerCount + 1 },
      logs := logs0 ++ logs1 ++ [.warning "Trying to reconnect in %i s"],
      scheduledRun := some s2.reconnect_interval }

/-- Python exceptions that `on_message` can raise while reading
`event["type"]`; `safe` would route them to the error channel. -/
inductive PyExc where
  | KeyError
  | TypeError
  | AttributeError
deriving DecidableEq, Repr

/-- Observable outcome of one `on_message` call.  A dispatched call
carries the exact positional-argument list passed to the
`receive_<type>` method. -/
inductive MsgOutcome where
  /-- `json.loads` raised `JSONDecodeError`: logged and dropped. -/
  | droppedMalformed
  /-- no `receive_<type>` method: logged and dropped. -/
  | droppedUnknown (t : Json)
  /-- `receive_<type>` called with the given positional arguments. -/
  | dispatched (name : String) (args : List Json)
  /-- an exception escaped the method body (captured by `safe`). -/
  | escalated (e : PyExc)
deriving Repr

/-- Embedding of `WebSocketClient.on_message`.  `hasHandler name` is
`hasattr(self, name)`; `parsed` is the result of `json.loads(message)`
(`none` when the payload is not valid JSON).  Reading `event["type"]`
raises `TypeError` on a non-dict and `KeyError` on a missing key, both
escalated by the `safe` wrapper. -/
def on_message (hasHandler : String → Bool) (parsed : Option Json) : MsgOutcome :=
  match parsed with
  -- if the message is not in JSON format, assume this is an error
  | none => .droppedMalformed
  | some event =>
    match event with
    | .obj fields =>
      match lookup fields "type" with
      | none => .escalated .KeyError
      | some t =>
        -- attempt to call the corresponding method
        let name := "receive_" ++ pyStr t
        if hasHandler name then
          .dispatched name [(lookup fields "data").getD .null]
        else .droppedUnknown t
    | _ => .escalated .TypeError

/-- Content dictionary built by `WebSocketClient.send`: the type, plus
the data when it is truthy (Python `if data:`).  An absent `data`
argument defaults to `None`, i.e. `Json.null`. -/
def send_content (message_type : String) (data : Json) : List (String × Json) :=
  if truthy data then [("type", Json.str message_type), ("data", data)]
  else [("type", Json.str message_type)]

/-- Embedding of `WebSocketClient.send` (with its `connected`
decorator): fail with `NotConnectedError` when no websocket is set,
otherwise return the single frame written to the wire. -/
def send (s : ClientState) (message_type : String) (data : Json := .null) :
    Except DakaraErr String :=
  match s.websocket with
  | none => .error .NotConnectedError
  | some _ => .ok (Json.dumps (.obj (send_content message_type data)))

/-- The frames written to the underlying websocket by one `send` call. -/
def sentFrames (s : ClientState) (message_type : String) (data : Json := .null) :
    List String :=
  match send s message_type data with
  | .ok frame => [frame]
  | .error _ => []

/-- An action on the underlying socket. -/
inductive SockAction where
  | abortCalled
deriving DecidableEq, Repr

/-- `self.websocket.sock.abort()`: raises `AttributeError` when the
`sock` object lacks the `abort` method. -/
def sock_abort (w : Websock) : Except PyExc SockAction :=
  if w.sockHasAbort then .ok .abortCalled else .error .AttributeError

/-- Embedding of `WebSocketClient.abort`: clear `retry`, then call
`sock.abort()` only when a websocket exists and its `sock` has the
`abort` attribute. -/
def abort (s : ClientState) : Except PyExc (ClientState × Option SockAction) :=
  let s1 := { s with retry := false }
  match s1.websocket with
  | some w =>
      if w.sockHasAbort then
        match sock_abort w with
        | .ok a => .ok (s1, some a)
        | .error e => .error e
      else .ok (s1, none)
  | none => .ok (s1, none)

/-! ## Spec-side definitions for the refinement claims

These definitions follow the specification's words, to be compared with
the embeddings above. -/

/-- Dispatch as claim C4 words it: the handler is invoked with the
event's `data` field, or with no argument when `data` is absent.  Only
the dispatched-arguments clause differs from `on_message`. -/
def on_message_claimed (hasHandler : String → Bool) (parsed : Option Json) : MsgOutcome :=
  match parsed with
  | none => .droppedMalformed
  | some event =>
    match event with
    | .obj fields =>
      match lookup fields "type" with
      | none => .escalated .KeyError
      | some t =>
        let name := "receive_" ++ pyStr t
        if hasHandler name then
          .dispatched name (match lookup fields "data" with
            | some d => [d]
            | none => [])
        else .droppedUnknown t
    | _ => .escalated .TypeError

/-- Content dictionary as claim C5 words it: `{"type": type, "data":
data}`, with `"data"` omitted exactly when data is not supplied
(`none`). -/
def send_content_claimed (message_type : String) (data : Option Json) :
    List (String × Json) :=
  match data with
  | some d => [("type", Json.str message_type), ("data", d)]
  | none => [("type", Json.str message_type)]

/-- Number of positional arguments of a dispatched handler call. -/
def dispatchedArity : MsgOutcome → Option Nat
  | .dispatched _ args => some args.length
  | _ => none

/-- A sample client state with a live connection. -/
def sampleConnected : ClientState :=
  { websocket := some { sockHasAbort := true }, retry := false,
    reconnect_interval := 5, timer := { id := 0, interval := 0, started := false },
    timerCount := 1 }

/-- A sample client state with no connection. -/
def sampleDisconnected : ClientState :=
  { sampleConnected with websocket := none }

/-! ## Claims -/

/-- Claim C1: for every `on_error(ConnectionRefusedError)` call while the
Stop Signal is not set, the call escalates a `NetworkError` when `retry`
is false, and only logs a warning and returns when `retry` is true. -/
theorem C1_on_error_connection_refused :
    on_error false false .ConnectionRefusedError
      = .escalated .NetworkError
    ∧ on_error false true .ConnectionRefusedError
      = .warned "Unable to talk to the server" :=
  ⟨rfl, rfl⟩

/-- Claim C2: every `on_close` call while the Stop Signal is set only
nulls the websocket handle and logs; the rest of the state (timer
included) is untouched and no run is scheduled. -/
theorem C2_on_close_stop_terminal (s : ClientState) (code : Option Int)
    (reason : Option String) :
    (on_close true s code reason).state = { s with websocket := none }
    ∧ (on_close true s code reason).scheduledRun = none :=
  ⟨rfl, rfl⟩

/-- Claim C3: `on_open` clears `retry`; `on_close` while the Stop Signal
is not set nulls the websocket handle, sets `retry`, and schedules a new
run after exactly `reconnect_interval` seconds via a fresh started timer
replacing the previous one (`hfresh` is the invariant that the current
timer was created by this client). -/
theorem C3_open_close_reconnect (s : ClientState) (code : Option Int)
    (reason : Option String) (hfresh : s.timer.id < s.timerCount) :
    (on_open s).1.retry = false
    ∧ (on_close false s code reason).state.websocket = none
    ∧ (on_close false s code reason).state.retry = true
    ∧ (on_close false s code reason).scheduledRun = some s.reconnect_interval
    ∧ (on_close false s code reason).state.timer
        = timer_start (create_timer s.timerCount s.reconnect_interval)
    ∧ (on_close false s code reason).state.timer.started = true
    ∧ (on_close false s code reason).state.timer ≠ s.timer
    ∧ (on_close false s code reason).state.timer.id
        < (on_close false s code reason).state.timerCount := by
  refine ⟨rfl, rfl, rfl, rfl, rfl, rfl, ?_, ?_⟩
  · intro h
    have h2 : s.timerCount = s.timer.id := congrArg TimerH.id h
    omega
  · show s.timerCount < s.timerCount + 1
    omega

/-- Witness for claim C3 at a concrete state. -/
theorem C3_open_close_reconnect_witness :
    (on_open sampleConnected).1.retry = false
    ∧ (on_close false sampleConnected none none).state.retry = true
    ∧ (on_close false sampleConnected none none).scheduledRun = some 5 :=
  ⟨(C3_open_close_reconnect sampleConnected none none (by decide)).1,
   (C3_open_close_reconnect sampleConnected none none (by decide)).2.2.1,
   (C3_open_close_reconnect sampleConnected none none (by decide)).2.2.2.1⟩

/-- Claim C6: `on_error` with a `WebSocketBadStatusException` escalates
an `AuthenticationError` whatever `retry` is, except that with the Stop
Signal set every error is swallowed silently. -/
theorem C6_on_error_bad_status (retry : Bool) :
    on_error false retry .WebSocketBadStatusException
      = .escalated .AuthenticationError
    ∧ ∀ e, on_error true retry e = .ignored :=
  ⟨rfl, fun _ => rfl⟩

/-- Claim C7: `abort` never raises in any state (even with no websocket
or a sock lacking the `abort` attribute), leaves `retry` false, and is
idempotent: a second call returns the same state and action. -/
theorem C7_abort_total_idempotent (s : ClientState) :
    ∃ act, abort s = .ok ({ s with retry := false }, act)
      ∧ abort { s with retry := false } = .ok ({ s with retry := false }, act) := by
  unfold abort sock_abort
  rcases hw : s.websocket with _ | w
  · exact ⟨none, by simp [hw]⟩
  · cases hab : w.sockHasAbort
    · exact ⟨none, by simp [hw, hab]⟩
    · exact ⟨some .abortCalled, by simp [hw, hab]⟩

/-- Claim C4, counterexample: on the event `{"type": "x"}` with a
handler registered for `x`, the code invokes `receive_x` with one
positional argument, `None`, whereas the claim says it is invoked with
no argument; the two dispatches differ. -/
theorem C4_on_message_counterexample :
    on_message (fun n => n == "receive_x") (some (Json.obj [("type", Json.str "x")]))
      = MsgOutcome.dispatched "receive_x" [Json.null]
    ∧ on_message_claimed (fun n => n == "receive_x")
        (some (Json.obj [("type", Json.str "x")]))
      = MsgOutcome.dispatched "receive_x" []
    ∧ on_message (fun n => n == "receive_x") (some (Json.obj [("type", Json.str "x")]))
      ≠ on_message_claimed (fun n => n == "receive_x")
          (some (Json.obj [("type", Json.str "x")])) := by
  refine ⟨rfl, rfl, fun h => absurd (congrArg dispatchedArity h) (by decide)⟩

/-- Claim C4 as amended: a payload that is not valid JSON is logged and
dropped without escalating; a parsed event whose type has no
`receive_<type>` method is logged and dropped; otherwise `receive_<type>`
is invoked with one argument, the event's `data` field, which is `None`
when `data` is absent. -/
theorem C4_on_message_dispatch (hasHandler : String → Bool)
    (fields : List (String × Json)) (t : Json)
    (ht : lookup fields "type" = some t) :
    on_message hasHandler none = .droppedMalformed
    ∧ (hasHandler ("receive_" ++ pyStr t) = false →
        on_message hasHandler (some (.obj fields)) = .droppedUnknown t)
    ∧ (hasHandler ("receive_" ++ pyStr t) = true →
        on_message hasHandler (some (.obj fields))
          = .dispatched ("receive_" ++ pyStr t) [(lookup fields "data").getD .null]) := by
  refine ⟨rfl, fun hh => ?_, fun hh => ?_⟩ <;> simp [on_message, ht, hh]

/-- Witness for claim C4 as amended, on concrete events. -/
theorem C4_on_message_dispatch_witness :
    on_message (fun n => n == "receive_x")
        (some (Json.obj [("type", Json.str "x"), ("data", Json.str "d")]))
      = MsgOutcome.dispatched "receive_x" [Json.str "d"]
    ∧ on_message (fun n => n == "receive_y")
        (some (Json.obj [("type", Json.str "x")]))
      = MsgOutcome.droppedUnknown (Json.str "x") :=
  ⟨(C4_on_message_dispatch (fun n => n == "receive_x")
      [("type", Json.str "x"), ("data", Json.str "d")] (Json.str "x") rfl).2.2 rfl,
   (C4_on_message_dispatch (fun n => n == "receive_y")
      [("type", Json.str "x")] (Json.str "x") rfl).2.1 rfl⟩

/-- Claim C5, counterexample: with a live connection, `send("x", "")`
(data supplied but falsy) writes the frame serializing `{"type": "x"}`,
not the serialization of `{"type": "x", "data": ""}` that the claim
demands for supplied data. -/
theorem C5_send_counterexample :
    send sampleConnected "x" (Json.str "")
      = .ok (Json.dumps (.obj (send_content "x" (Json.str ""))))
    ∧ Json.dumps (.obj (send_content "x" (Json.str "")))
      = "\x7b\"type\": \"x\"\x7d"
    ∧ Json.dumps (.obj (send_content_claimed "x" (some (Json.str ""))))
      = "\x7b\"type\": \"x\", \"data\": \"\"\x7d"
    ∧ Json.dumps (.obj (send_content "x" (Json.str "")))
      ≠ Json.dumps (.obj (send_content_claimed "x" (some (Json.str "")))) := by
  refine ⟨rfl, rfl, rfl, by decide⟩

/-- Claim C5 as amended: with no websocket, `send` fails with
`NotConnectedError` and writes nothing; with a websocket, it writes the
JSON serialization of `{"type": type, "data": data}` when the supplied
data is truthy, omitting the `"data"` field entirely (not sending null)
when data is not supplied or the supplied data is falsy. -/
theorem C5_send (s : ClientState) (t : String) (d : Json) :
    (s.websocket = none →
        send s t d = .error .NotConnectedError ∧ sentFrames s t d = [])
    ∧ (∀ w, s.websocket = some w →
        send s t d = .ok (Json.dumps (.obj (send_content t d)))
        ∧ (truthy d = true →
            send_content t d = [("type", Json.str t), ("data", d)])
        ∧ (truthy d = false →
            send_content t d = [("type", Json.str t)])) := by
  constructor
  · intro hw
    constructor
    · simp [send, hw]
    · simp [sentFrames, send, hw]
  · intro w hw
    refine ⟨by simp [send, hw], fun htr => ?_, fun htr => ?_⟩ <;>
      simp [send_content, htr]

/-- Witness for claim C5 as amended, at concrete states and data. -/
theorem C5_send_witness :
    send sampleDisconnected "x" (Json.str "d") = .error .NotConnectedError
    ∧ send sampleConnected "x" (Json.str "d")
      = .ok (Json.dumps (.obj (send_content "x" (Json.str "d"))))
    ∧ send_content "x" (Json.str "d") = [("type", Json.str "x"), ("data", Json.str "d")] :=
  ⟨((C5_send sampleDisconnected "x" (Json.str "d")).1 rfl).1,
   ((C5_send sampleConnected "x" (Json.str "d")).2 { sockHasAbort := true } rfl).1,
   (((C5_send sampleConnected "x" (Json.str "d")).2 { sockHasAbort := true } rfl).2).1 rfl⟩

/-- Claim C9: over a live connection, `send` with supplied but falsy
data writes exactly the serialization of `{"type": type}` — the same
frame as when data is absent. -/
theorem C9_send_falsy_data (s : ClientState) (w : Websock) (t : String) (d : Json)
    (hw : s.websocket = some w) (hd : truthy d = false) :
    send s t d = .ok (Json.dumps (.obj [("type", Json.str t)]))
    ∧ send s t d = send s t Json.null := by
  constructor <;>
    simp [send, hw, send_content, hd, show truthy Json.null = false from rfl]

/-- Witness for claim C9 at the empty string. -/
theorem C9_send_falsy_data_witness :
    send sampleConnected "x" (Json.str "")
      = .ok (Json.dumps (.obj [("type", Json.str "x")]))
    ∧ send sampleConnected "x" (Json.str "") = send sampleConnected "x" Json.null :=
  C9_send_falsy_data sampleConnected { sockHasAbort := true } "x" (Json.str "") rfl rfl

/-- Dropping a prefix never lengthens a list. -/
theorem dropWhile_length_le {α : Type} (p : α → Bool) (l : List α) :
    (l.dropWhile p).length ≤ l.length := by
  induction l with
  | nil => exact Nat.le_refl 0
  | cons c rest ih =>
    simp only [List.dropWhile]
    cases h : p c
    · simp
    · simpa using ih.trans (Nat.le_succ _)

/-- Stripping never lengthens a character list. -/
theorem pyStrip_length_le (s : List Char) : (pyStrip s).length ≤ s.length := by
  unfold pyStrip
  rw [List.length_reverse]
  refine (dropWhile_length_le _ _).trans ?_
  rw [List.length_reverse]
  exact dropWhile_length_le _ _

/-- Claim C8: `create_url` composes the connection target from exactly
one of `url`, `host` or `address`, and fails with a `URLParameterError`
when both `url` and the host are missing or when the `ssl` selection
leaves no scheme. -/
theorem C8_create_url (url address host : String) (port : Option String) (path : String)
    (ssl : Bool) (scheme_no_ssl scheme_ssl : String) :
    (url ≠ "" →
      create_url url address host port path ssl scheme_no_ssl scheme_ssl
        = .ok (furlAddPath url path))
    ∧ (url = "" → host ≠ "" → (if ssl then scheme_ssl else scheme_no_ssl) ≠ "" →
        validPortOpt port = true →
        create_url url address host port path ssl scheme_no_ssl scheme_ssl
          = .ok (mkNetUrl (if ssl then scheme_ssl else scheme_no_ssl) host port path))
    ∧ (∀ h p, url = "" → host = "" → pySplit address ':' = [h, p] → h ≠ "" →
        (if ssl then scheme_ssl else scheme_no_ssl) ≠ "" → validPort p = true →
        create_url url address host port path ssl scheme_no_ssl scheme_ssl
          = .ok (mkNetUrl (if ssl then scheme_ssl else scheme_no_ssl) h (some p) path))
    ∧ (url = "" → host = "" → pySplit address ':' = [address] → address ≠ "" →
        (if ssl then scheme_ssl else scheme_no_ssl) ≠ "" → validPortOpt port = true →
        create_url url address host port path ssl scheme_no_ssl scheme_ssl
          = .ok (mkNetUrl (if ssl then scheme_ssl else scheme_no_ssl) address port path))
    ∧ (url = "" → host = "" → address = "" →
        create_url url address host port path ssl scheme_no_ssl scheme_ssl
          = .error .mandatoryMissing)
    ∧ (url = "" → (if ssl then scheme_ssl else scheme_no_ssl) = "" →
        create_url url address host port path ssl scheme_no_ssl scheme_ssl
          = .error .mandatoryMissing) := by
  refine ⟨fun hu => ?_, fun hu hh hs hp => ?_, fun h p hu hh hsp hne hs hp => ?_,
    fun hu hh hsp hne hs hp => ?_, fun hu hh ha => ?_, fun hu hs => ?_⟩
  · simp [create_url, hu]
  · simp [create_url, hu, hh, hs, furlBuild, hp]
  · simp [create_url, hu, hh, hsp, hne, hs, furlBuild, validPortOpt, hp]
  · subst hh
    simp [create_url, hu, hsp, hne, hs, furlBuild, hp]
  · subst ha
    subst hh
    simp [create_url, hu, pySplit, splitCharAux]
  · rcases hhost : (if host = "" then
        match pySplit address ':' with
        | [h, p] => (h, some p)
        | _ => (address, port)
      else (host, port)) with ⟨h1, p1⟩
    simp [create_url, hu, hs, hhost]

/-- Witness for claim C8 at concrete configurations: a direct URL, a
host with port, an `address` in `host:port` form, a configuration with
nothing supplied, and an `ssl` selection with an empty scheme. -/
theorem C8_create_url_witness :
    create_url "http://www.example.com" "" "" none "ws" false "ws" "wss"
      = .ok "http://www.example.com/ws"
    ∧ create_url "" "" "www.example.com" (some "8000") "ws" false "ws" "wss"
      = .ok "ws://www.example.com:8000/ws"
    ∧ create_url "" "www.example.com:8000" "" none "path" true "ws" "wss"
      = .ok "wss://www.example.com:8000/path"
    ∧ create_url "" "" "" none "" false "ws" "wss"
      = .error .mandatoryMissing
    ∧ create_url "" "" "www.example.com" none "" true "ws" ""
      = .error .mandatoryMissing :=
  ⟨(C8_create_url "http://www.example.com" "" "" none "ws" false "ws" "wss").1
      (by decide),
   (C8_create_url "" "" "www.example.com" (some "8000") "ws" false "ws" "wss").2.1
      rfl (by decide) (by decide) (by decide),
   (C8_create_url "" "www.example.com:8000" "" none "path" true "ws" "wss").2.2.1
      "www.example.com" "8000" rfl rfl (by decide) (by decide) (by decide) (by decide),
   (C8_create_url "" "" "" none "" false "ws" "wss").2.2.2.2.1 rfl rfl rfl,
   (C8_create_url "" "" "www.example.com" none "" true "ws" "").2.2.2.2.2 rfl rfl⟩

/-- Claim C10: for every message and every limit at least 3,
`display_message` returns the message unchanged when it fits in `limit`
characters, otherwise the first `limit - 3` characters stripped with
`"..."` appended, and the result never exceeds `limit` characters. -/
theorem C10_display_message (m : List Char) (limit : Nat) (h3 : 3 ≤ limit) :
    (m.length ≤ limit → display_message m limit = m)
    ∧ (limit < m.length →
        display_message m limit = pyStrip (m.take (limit - 3)) ++ [ '.', '.', '.' ])
    ∧ (display_message m limit).length ≤ limit := by
  unfold display_message
  by_cases hle : m.length ≤ limit
  · simp [hle]
  · push_neg at hle
    rw [if_neg (by omega)]
    refine ⟨fun h => absurd h (by omega), fun _ => rfl, ?_⟩
    have h1 : (pyStrip (m.take (limit - 3))).length ≤ limit - 3 :=
      (pyStrip_length_le _).trans (by simp)
    rw [List.length_append]
    simp only [List.length_cons, List.length_nil]
    omega

/-- Witness for claim C10: a short message is unchanged, a long one is
truncated to the limit. -/
theorem C10_display_message_witness :
    display_message "hi".toList 8 = "hi".toList
    ∧ display_message "hello world".toList 8
      = pyStrip ("hello world".toList.take 5) ++ [ '.', '.', '.' ]
    ∧ pyStrip ("hello world".toList.take 5) ++ [ '.', '.', '.' ] = "hello...".toList
    ∧ (display_message "hello world".toList 8).length ≤ 8 :=
  ⟨(C10_display_message "hi".toList 8 (by decide)).1 (by decide),
   (C10_display_message "hello world".toList 8 (by decide)).2.1 (by decide),
   by decide,
   (C10_display_message "hello world".toList 8 (by decide)).2.2⟩

end DakaraBase
